import Mathlib

/-!
Verification of the sender component of the Digital-Capture-Card repository
(src/sender/sender.cpp), as a shallow embedding.

The program is sequential and its only interactions with the operating system
are: opening a pipe to a probing subprocess and draining it (exec via _popen),
creating the streaming child process (CreateProcessA), waiting for that child
(WaitForSingleObject) and closing its handles (CloseHandle).  Each of these
interactions is modelled by an explicit input (the `ReadOutcome` of the pipe,
the `Except` result of process creation, the way the child eventually exits)
and the runs are recorded as an event trace, so that temporal claims (what was
acquired, what was released, what was never attempted) become statements about
the trace.
-/

namespace Sender

/-- Configuration constant `DEFAULT_TARGET_IP` of sender.cpp (line 10). -/
def DEFAULT_TARGET_IP : String := "192.168.1.100"

/-- Configuration constant `TARGET_PORT` of sender.cpp (line 11). -/
def TARGET_PORT : Nat := 5555

/-- Configuration constant `FRAME_RATE` of sender.cpp (line 12). -/
def FRAME_RATE : Nat := 60

/-- Boolean substring test, modelling `std::string::find(pat) != std::string::npos`:
true exactly when `pat` occurs contiguously inside `s`. -/
def strContains (s pat : String) : Bool := decide (pat.data <:+: s.data)

/-- How the operating-system side of one `_popen`/`fgets` interaction goes:
the pipe fails to open (`_popen` returns null), the pipe opens and the whole
output is read to end-of-stream, or the pipe opens and an exception is thrown
while reading. -/
inductive ReadOutcome where
  | openFail
  | ok (content : String)
  | readExn (msg : String)
  deriving DecidableEq, Repr

/-- Observable resource / process events of a run. -/
inductive Event where
  | popenCall (cmd : String)
  | pipeAcquired
  | pcloseCall
  | createProcessCall (cmd : String)
  | processAcquired
  | waitCall
  | closeProcessHandle
  | closeThreadHandle
  deriving DecidableEq, Repr

/-- How the streaming child process eventually terminates (never inspected by
the program, which only waits for termination). -/
inductive ChildExit where
  | normalExit (code : Nat)
  | crashed
  | killedExternally
  deriving DecidableEq, Repr

/-- Model of `exec(cmd)` (sender.cpp lines 16-30).  On pipe-open failure it
throws (`Except.error`) having acquired nothing; otherwise the pipe is
acquired, and it is closed again both on normal end-of-stream and when an
exception is thrown while reading (the `catch (...) { _pclose(pipe); throw; }`
block). -/
def exec (cmd : String) (o : ReadOutcome) : Except String String × List Event :=
  match o with
  | ReadOutcome.openFail =>
      (Except.error ("_popen() failed!"), [Event.popenCall cmd])
  | ReadOutcome.ok content =>
      (Except.ok content, [Event.popenCall cmd, Event.pipeAcquired, Event.pcloseCall])
  | ReadOutcome.readExn msg =>
      (Except.error msg, [Event.popenCall cmd, Event.pipeAcquired, Event.pcloseCall])

/-- The probing command line of `checkNvencAvailable` (sender.cpp line 36). -/
def probeCommand : String := "ffmpeg -hide_banner -encoders | findstr h264_nvenc"

/-- Result of the capability probe: the boolean it returns (it always returns a
boolean -- every exception from `exec` is caught inside), what it printed, and
the resource events of the probing subprocess. -/
structure ProbeResult where
  available : Bool
  stdoutMsgs : List String
  stderrMsgs : List String
  events : List Event
  deriving DecidableEq, Repr

/-- Model of `checkNvencAvailable()` (sender.cpp lines 33-54).  The boolean is
the substring test `output.find("h264_nvenc") != npos` on the captured output;
every exception thrown by `exec` is caught and turned into a diagnostic plus
the return value `false`. -/
def checkNvencAvailable (o : ReadOutcome) : ProbeResult :=
  match exec probeCommand o with
  | (Except.ok output, evs) =>
      if strContains output ("h264_nvenc") then
        { available := true,
          stdoutMsgs := [("Checking for NVENC availability..."), ("NVENC encoder found.")],
          stderrMsgs := [],
          events := evs }
      else
        { available := false,
          stdoutMsgs := [("Checking for NVENC availability...")],
          stderrMsgs := [("Error: h264_nvenc encoder not found by FFmpeg."),
            ("Please ensure you have NVIDIA drivers installed and an FFmpeg build with NVENC enabled.")],
          events := evs }
  | (Except.error e, evs) =>
      { available := false,
        stdoutMsgs := [("Checking for NVENC availability...")],
        stderrMsgs := [("Error checking for NVENC: ") ++ e,
          ("Is FFmpeg installed and in your system\x27s PATH?")],
        events := evs }

/-- Model of the argument handling of `main` (sender.cpp lines 57-66):
`argv[1]` if `argc > 1`, the default constant otherwise. -/
def resolveTargetIp (argv : List String) : String :=
  if argv.length > 1 then argv.getD 1 DEFAULT_TARGET_IP else DEFAULT_TARGET_IP

/-- Model of the FFmpeg command construction of `main` (sender.cpp lines 75-92):
the exact stream-insertion sequence of `ffmpegCmdStream`. -/
def buildStreamCommand (targetIp : String) : String :=
  "ffmpeg -hide_banner " ++ "-f gdigrab " ++ "-framerate " ++ toString FRAME_RATE ++ " " ++
    "-i desktop " ++ "-c:v h264_nvenc " ++ "-preset p1 " ++ "-tune ll " ++ "-qp 0 " ++
    "-rc constqp " ++ "-f mpegts " ++ "udp://" ++ targetIp ++ ":" ++ toString TARGET_PORT

/-- The environment a run interacts with: how the probing pipe behaves, whether
`CreateProcessA` succeeds (`Except.error code` carries the `GetLastError` value),
and how the streaming child eventually exits. -/
structure World where
  probeOutcome : ReadOutcome
  launchResult : Except Nat Unit
  childExit : ChildExit
  deriving Repr

/-- Observable result of a whole run of the program. -/
structure RunResult where
  exitCode : Nat
  stdoutMsgs : List String
  stderrMsgs : List String
  events : List Event
  deriving DecidableEq, Repr

/-- Model of `main` (sender.cpp lines 57-134).  Mirrors the control flow of the
source: resolve the target host, probe for NVENC (exit 1 if unavailable),
build the FFmpeg command, attempt `CreateProcessA` (diagnostic with the
`GetLastError` code and exit 1 on failure), otherwise wait for the child and
close the process and thread handles, returning 0.  The way the child exits
(`World.childExit`) is never inspected. -/
def main (argv : List String) (w : World) : RunResult :=
  let targetIp := resolveTargetIp argv
  let argMsg :=
    if argv.length > 1 then ("Using target IP from command line: ") ++ targetIp
    else ("Using default target IP: ") ++ targetIp
  let probe := checkNvencAvailable w.probeOutcome
  if probe.available then
    let cmd := buildStreamCommand targetIp
    match w.launchResult with
    | Except.error errCode =>
        { exitCode := 1,
          stdoutMsgs := argMsg :: probe.stdoutMsgs ++
            [("\nExecuting FFmpeg command:\n") ++ cmd ++ ("\n")],
          stderrMsgs := probe.stderrMsgs ++
            [("CreateProcess failed (") ++ toString errCode ++ (")."),
             ("Ensure ffmpeg.exe is in your system\x27s PATH or in the same directory as sender.exe.")],
          events := probe.events ++ [Event.createProcessCall cmd] }
    | Except.ok _ =>
        { exitCode := 0,
          stdoutMsgs := argMsg :: probe.stdoutMsgs ++
            [("\nExecuting FFmpeg command:\n") ++ cmd ++ ("\n"),
             ("Streaming started... Press Ctrl+C in this window to stop."),
             ("Streaming stopped.")],
          stderrMsgs := probe.stderrMsgs,
          events := probe.events ++
            [Event.createProcessCall cmd, Event.processAcquired, Event.waitCall,
             Event.closeProcessHandle, Event.closeThreadHandle] }
  else
    { exitCode := 1,
      stdoutMsgs := argMsg :: probe.stdoutMsgs,
      stderrMsgs := probe.stderrMsgs,
      events := probe.events }

/-- Whitespace tokenisation of a command line: the maximal space-free segments,
used to speak about the final token of the built command. -/
def cmdTokens (s : String) : List String :=
  (s.data.splitOn ' ').map fun cs => String.mk cs

/-- Everything of the built command line that precedes the destination URI. -/
def cmdHead : String :=
  "ffmpeg -hide_banner -f gdigrab -framerate 60 -i desktop -c:v h264_nvenc -preset p1 -tune ll -qp 0 -rc constqp -f mpegts"

lemma sdata_append (a b : String) : (a ++ b).data = a.data ++ b.data := rfl

lemma buildStreamCommand_data (host : String) :
    (buildStreamCommand host).data =
      cmdHead.data ++ ' ' :: ("udp://".data ++ ((host.data ++ ":".data) ++ "5555".data)) := rfl

lemma splitOn_concat_no_space (T : List Char) (hT : ∀ c ∈ T, c ≠ ' ') :
    ∀ L : List Char, (L ++ ' ' :: T).splitOn ' ' = L.splitOn ' ' ++ [T] := by
  have hsingle : T.splitOnP (fun c => c == ' ') = [T] :=
    List.splitOnP_eq_single _ _ (fun x hx h => hT x hx (eq_of_beq h))
  intro L
  induction L with
  | nil =>
      show ((' ' :: T).splitOnP fun c => c == ' ') = [[]] ++ [T]
      rw [List.splitOnP_cons]
      simp [hsingle]
  | cons c L ih =>
      show ((c :: (L ++ ' ' :: T)).splitOnP fun c => c == ' ') =
        ((c :: L).splitOnP fun c => c == ' ') ++ [T]
      rw [List.splitOnP_cons, List.splitOnP_cons]
      by_cases hc : (c == ' ') = true
      · simp only [hc, if_true, List.cons_append]
        exact congrArg (List.cons []) ih
      · simp only [hc, if_false]
        obtain ⟨h0, hs, he⟩ := List.exists_cons_of_ne_nil
          (List.splitOnP_ne_nil (fun c => c == ' ') L)
        have he2 : ((L ++ ' ' :: T).splitOnP fun c => c == ' ') = h0 :: (hs ++ [T]) := by
          have hL : List.splitOn ' ' L = h0 :: hs := he
          have ih2 : ((L ++ ' ' :: T).splitOnP fun c => c == ' ') =
            List.splitOn ' ' L ++ [T] := ih
          rw [ih2, hL]
          rfl
        rw [he2, he]
        rfl

lemma uri_no_space (host : String) (h : ' ' ∉ host.data) :
    ∀ c ∈ "udp://".data ++ ((host.data ++ ":".data) ++ "5555".data), c ≠ ' ' := by
  intro c hc
  rcases List.mem_append.mp hc with h1 | h2
  · exact (by decide : ∀ c ∈ "udp://".data, c ≠ ' ') c h1
  · rcases List.mem_append.mp h2 with h3 | h4
    · rcases List.mem_append.mp h3 with h5 | h6
      · intro he
        exact h (he ▸ h5)
      · exact (by decide : ∀ c ∈ ":".data, c ≠ ' ') c h6
    · exact (by decide : ∀ c ∈ "5555".data, c ≠ ' ') c h4

lemma strContains_sandwich (a m b : String) : strContains (a ++ m ++ b) m = true := by
  simp only [strContains, decide_eq_true_eq]
  exact ⟨a.data, b.data, by rw [sdata_append, sdata_append]⟩

lemma checkNvenc_found (s : String) (hn : strContains s ("h264_nvenc") = true) :
    checkNvencAvailable (ReadOutcome.ok s) =
      { available := true,
        stdoutMsgs := [("Checking for NVENC availability..."), ("NVENC encoder found.")],
        stderrMsgs := [],
        events := [Event.popenCall probeCommand, Event.pipeAcquired, Event.pcloseCall] } := by
  simp only [checkNvencAvailable, exec]
  rw [hn]
  rfl

lemma checkNvenc_not_found (s : String) (hn : strContains s ("h264_nvenc") = false) :
    checkNvencAvailable (ReadOutcome.ok s) =
      { available := false,
        stdoutMsgs := [("Checking for NVENC availability...")],
        stderrMsgs := [("Error: h264_nvenc encoder not found by FFmpeg."),
          ("Please ensure you have NVIDIA drivers installed and an FFmpeg build with NVENC enabled.")],
        events := [Event.popenCall probeCommand, Event.pipeAcquired, Event.pcloseCall] } := by
  simp only [checkNvencAvailable, exec]
  rw [hn]
  rfl

lemma cmdTokens_last (host : String) (h : ' ' ∉ host.data) :
    (cmdTokens (buildStreamCommand host)).getLast? =
      some ("udp://" ++ host ++ ":5555") := by
  unfold cmdTokens
  rw [buildStreamCommand_data, splitOn_concat_no_space _ (uri_no_space host h),
    List.getLast?_map, List.getLast?_concat]
  show some (String.mk _) = _
  refine congrArg some (String.ext ?_)
  show "udp://".data ++ ((host.data ++ ":".data) ++ "5555".data) =
    ("udp://" ++ host ++ ":5555").data
  simp only [List.append_assoc]
  rfl

/-- Claim C1: for every host string without command-separator characters (in
particular no space, the token separator of the built line), the command line
built for the streaming launch has as its final token the destination URI
exactly udp://<host>:5555 with the fixed port constant 5555, and contains the
frame-rate argument -framerate 60 with the fixed frame rate 60. -/
theorem c1_final_token_uri_and_framerate (host : String) (h : ' ' ∉ host.data) :
    TARGET_PORT = 5555 ∧ FRAME_RATE = 60 ∧
    (cmdTokens (buildStreamCommand host)).getLast? =
      some ("udp://" ++ host ++ ":5555") ∧
    strContains (buildStreamCommand host) ("-framerate 60") = true := by
  refine ⟨rfl, rfl, cmdTokens_last host h, ?_⟩
  simp only [strContains, decide_eq_true_eq]
  refine ⟨"ffmpeg -hide_banner -f gdigrab ".data,
    " -i desktop -c:v h264_nvenc -preset p1 -tune ll -qp 0 -rc constqp -f mpegts".data ++
      ' ' :: ("udp://".data ++ ((host.data ++ ":".data) ++ "5555".data)), ?_⟩
  rw [buildStreamCommand_data]
  rfl

/-- Witness for C1 at the concrete host 10.0.0.5. -/
theorem c1_final_token_uri_and_framerate_witness :
    TARGET_PORT = 5555 ∧ FRAME_RATE = 60 ∧
    (cmdTokens (buildStreamCommand ("10.0.0.5"))).getLast? =
      some ("udp://" ++ "10.0.0.5" ++ ":5555") ∧
    strContains (buildStreamCommand ("10.0.0.5")) ("-framerate 60") = true :=
  c1_final_token_uri_and_framerate ("10.0.0.5") (by decide)

/-- Claim C2: the capability probe returns true if and only if the captured
text output of the encoder-listing subprocess contains the substring
h264_nvenc; for every captured output not containing it, it returns false. -/
theorem c2_probe_true_iff_substring (s : String) :
    ((checkNvencAvailable (ReadOutcome.ok s)).available = true) ↔
      "h264_nvenc".data <:+: s.data := by
  cases hb : strContains s ("h264_nvenc") with
  | false =>
      rw [checkNvenc_not_found s hb]
      have hb2 : decide ("h264_nvenc".data <:+: s.data) = false := hb
      simpa using of_decide_eq_false hb2
  | true =>
      rw [checkNvenc_found s hb]
      have hb2 : decide ("h264_nvenc".data <:+: s.data) = true := hb
      simpa using of_decide_eq_true hb2

/-- Claim C3: if the captured probe output does not contain the encoder
substring, the program exits with status 1 and the trace holds no
process-creation event at all. -/
theorem c3_probe_failure_no_launch (argv : List String) (w : World) (s : String)
    (hp : w.probeOutcome = ReadOutcome.ok s)
    (hn : strContains s ("h264_nvenc") = false) :
    (main argv w).exitCode = 1 ∧
    ∀ cmd, Event.createProcessCall cmd ∉ (main argv w).events := by
  rcases w with ⟨po, lr, ce⟩
  cases hp
  constructor
  · simp [main, checkNvenc_not_found s hn]
  · intro cmd
    simp [main, checkNvenc_not_found s hn]

/-- Witness for C3: probe output without the substring, otherwise healthy world. -/
theorem c3_probe_failure_no_launch_witness :
    (main [("sender")]
        ⟨ReadOutcome.ok ("no encoders here"), Except.ok (), ChildExit.normalExit 0⟩).exitCode = 1 ∧
    Event.createProcessCall (buildStreamCommand ("192.168.1.100")) ∉
      (main [("sender")]
        ⟨ReadOutcome.ok ("no encoders here"), Except.ok (), ChildExit.normalExit 0⟩).events :=
  ⟨(c3_probe_failure_no_launch _ _ ("no encoders here") rfl (by decide)).1,
   (c3_probe_failure_no_launch _ _ ("no encoders here") rfl (by decide)).2 _⟩

/-- Claim C4: if the probing subprocess cannot be launched (pipe-open failure
in exec), the probe emits a diagnostic and returns the boolean false.  That no
exception escapes to the caller is reflected in the embedding by the fact that
checkNvencAvailable is a total function into ProbeResult (the exec exception is
consumed inside it), whereas exec itself returns Except.error on this path. -/
theorem c4_probe_pipe_failure_diagnoses_and_returns_false :
    (exec probeCommand ReadOutcome.openFail).1 = Except.error ("_popen() failed!") ∧
    (checkNvencAvailable ReadOutcome.openFail).available = false ∧
    (checkNvencAvailable ReadOutcome.openFail).stderrMsgs =
      [("Error checking for NVENC: _popen() failed!"),
       ("Is FFmpeg installed and in your system\x27s PATH?")] :=
  ⟨rfl, rfl, rfl⟩

/-- Claim C5: if creation of the streaming child process fails with platform
error code e, the program emits a diagnostic containing that code and exits
with status 1. -/
theorem c5_launch_failure_exits_one_with_code (argv : List String) (w : World)
    (s : String) (e : Nat)
    (hp : w.probeOutcome = ReadOutcome.ok s)
    (hn : strContains s ("h264_nvenc") = true)
    (hl : w.launchResult = Except.error e) :
    (main argv w).exitCode = 1 ∧
    (("CreateProcess failed (") ++ toString e ++ (").")) ∈ (main argv w).stderrMsgs ∧
    strContains (("CreateProcess failed (") ++ toString e ++ (").")) (toString e) = true := by
  rcases w with ⟨po, lr, ce⟩
  cases hp
  cases hl
  refine ⟨?_, ?_, strContains_sandwich _ _ _⟩
  · simp [main, checkNvenc_found s hn]
  · simp [main, checkNvenc_found s hn]

/-- Witness for C5 with error code 2 (file not found). -/
theorem c5_launch_failure_witness :
    (main [("sender"), ("10.0.0.5")]
        ⟨ReadOutcome.ok ("h264_nvenc"), Except.error 2, ChildExit.normalExit 0⟩).exitCode = 1 ∧
    (("CreateProcess failed (") ++ toString 2 ++ (").")) ∈
      (main [("sender"), ("10.0.0.5")]
        ⟨ReadOutcome.ok ("h264_nvenc"), Except.error 2, ChildExit.normalExit 0⟩).stderrMsgs ∧
    strContains (("CreateProcess failed (") ++ toString 2 ++ (").")) (toString 2) = true :=
  c5_launch_failure_exits_one_with_code _ _ ("h264_nvenc") 2 rfl (by decide) rfl

/-- Claim C6: whenever the streaming child is successfully launched, the
program waits for the child and then returns exit code 0, and the run is
wholly independent of how the child terminated. -/
theorem c6_wait_then_exit_zero (argv : List String) (w : World) (s : String)
    (hp : w.probeOutcome = ReadOutcome.ok s)
    (hn : strContains s ("h264_nvenc") = true)
    (hl : w.launchResult = Except.ok ()) :
    (main argv w).exitCode = 0 ∧ Event.waitCall ∈ (main argv w).events ∧
    ∀ c : ChildExit, main argv { w with childExit := c } = main argv w := by
  refine ⟨?_, ?_, fun c => rfl⟩
  · rcases w with ⟨po, lr, ce⟩
    cases hp
    cases hl
    simp [main, checkNvenc_found s hn]
  · rcases w with ⟨po, lr, ce⟩
    cases hp
    cases hl
    simp [main, checkNvenc_found s hn]

/-- Witness for C6: the child crashed, the program still reports 0. -/
theorem c6_wait_then_exit_zero_witness :
    (main [("sender")]
        ⟨ReadOutcome.ok ("h264_nvenc"), Except.ok (), ChildExit.crashed⟩).exitCode = 0 ∧
    Event.waitCall ∈
      (main [("sender")]
        ⟨ReadOutcome.ok ("h264_nvenc"), Except.ok (), ChildExit.crashed⟩).events ∧
    main [("sender")]
        { (⟨ReadOutcome.ok ("h264_nvenc"), Except.ok (), ChildExit.crashed⟩ : World) with
          childExit := ChildExit.killedExternally } =
      main [("sender")] ⟨ReadOutcome.ok ("h264_nvenc"), Except.ok (), ChildExit.crashed⟩ :=
  ⟨(c6_wait_then_exit_zero _ _ ("h264_nvenc") rfl (by decide) rfl).1,
   (c6_wait_then_exit_zero _ _ ("h264_nvenc") rfl (by decide) rfl).2.1,
   (c6_wait_then_exit_zero _ _ ("h264_nvenc") rfl (by decide) rfl).2.2
     ChildExit.killedExternally⟩

/-- Claim C7: with no command-line argument (argv holding only the program
name), the resolved target host is the built-in default constant
192.168.1.100, and it is that host that appears in the launched command. -/
theorem c7_default_host (prog : String) (w : World) (s : String)
    (hp : w.probeOutcome = ReadOutcome.ok s)
    (hn : strContains s ("h264_nvenc") = true) :
    resolveTargetIp [prog] = DEFAULT_TARGET_IP ∧
    DEFAULT_TARGET_IP = "192.168.1.100" ∧
    Event.createProcessCall (buildStreamCommand ("192.168.1.100")) ∈
      (main [prog] w).events := by
  refine ⟨rfl, rfl, ?_⟩
  rcases w with ⟨po, lr, ce⟩
  cases hp
  cases lr with
  | error e => simp [main, checkNvenc_found s hn, resolveTargetIp, DEFAULT_TARGET_IP]
  | ok u => simp [main, checkNvenc_found s hn, resolveTargetIp, DEFAULT_TARGET_IP]

/-- Witness for C7. -/
theorem c7_default_host_witness :
    resolveTargetIp [("sender")] = DEFAULT_TARGET_IP ∧
    DEFAULT_TARGET_IP = "192.168.1.100" ∧
    Event.createProcessCall (buildStreamCommand ("192.168.1.100")) ∈
      (main [("sender")]
        ⟨ReadOutcome.ok ("h264_nvenc"), Except.ok (), ChildExit.normalExit 0⟩).events :=
  c7_default_host ("sender") _ ("h264_nvenc") rfl (by decide)

/-- Claim C8: for every host string, including ones with metacharacters or
whitespace, the builder embeds the host character-for-character between
udp:// and :5555, with no quoting, escaping or validation: the built line is
literally the fixed text followed by the host followed by :5555. -/
theorem c8_host_embedded_verbatim (host : String) :
    buildStreamCommand host = cmdHead ++ " udp://" ++ host ++ ":5555" ∧
    (buildStreamCommand host).data =
      (cmdHead ++ " udp://").data ++ host.data ++ ":5555".data := by
  have hdata : (buildStreamCommand host).data =
      (cmdHead ++ " udp://").data ++ host.data ++ ":5555".data := by
    rw [buildStreamCommand_data]
    simp only [List.append_assoc]
    rfl
  refine ⟨String.ext ?_, hdata⟩
  rw [hdata]
  simp only [sdata_append, List.append_assoc]

/-- Claim C9: on every exit path, every acquired process or pipe resource is
released: whenever the probe pipe is acquired its close appears in the trace
(this covers both the normal end-of-stream path and the exception-while-reading
path of exec), and whenever the streaming process is acquired the trace
contains, in order, the wait followed by the closing of the process handle and
of the thread handle. -/
theorem c9_resources_released (argv : List String) (w : World) :
    (Event.pipeAcquired ∈ (main argv w).events →
      Event.pcloseCall ∈ (main argv w).events) ∧
    (Event.processAcquired ∈ (main argv w).events →
      List.Sublist [Event.waitCall, Event.closeProcessHandle, Event.closeThreadHandle]
        ((main argv w).events)) := by
  rcases w with ⟨po, lr, ce⟩
  cases po with
  | openFail =>
      constructor <;> intro hm <;>
        simp [main, checkNvencAvailable, exec] at hm
  | readExn m =>
      constructor <;> intro hm
      · simp [main, checkNvencAvailable, exec]
      · simp [main, checkNvencAvailable, exec] at hm
  | ok s =>
      cases hb : strContains s ("h264_nvenc") with
      | false =>
          constructor <;> intro hm
          · simp [main, checkNvenc_not_found s hb]
          · simp [main, checkNvenc_not_found s hb] at hm
      | true =>
          cases lr with
          | error e =>
              constructor <;> intro hm
              · simp [main, checkNvenc_found s hb]
              · simp [main, checkNvenc_found s hb] at hm
          | ok u =>
              constructor <;> intro hm
              · simp [main, checkNvenc_found s hb]
              · have hsub : List.Sublist
                    [Event.waitCall, Event.closeProcessHandle, Event.closeThreadHandle]
                    ([Event.popenCall probeCommand, Event.pipeAcquired, Event.pcloseCall] ++
                      [Event.createProcessCall (buildStreamCommand (resolveTargetIp argv)),
                       Event.processAcquired, Event.waitCall, Event.closeProcessHandle,
                       Event.closeThreadHandle]) :=
                  List.Sublist.trans
                    (((List.Sublist.refl _).cons _).cons _)
                    (List.sublist_append_right _ _)
                simpa [main, checkNvenc_found s hb] using hsub

/-- Witness for C9 on a run that acquires both the pipe and the process. -/
theorem c9_resources_released_witness :
    Event.pcloseCall ∈
      (main [("sender")]
        ⟨ReadOutcome.ok ("h264_nvenc"), Except.ok (), ChildExit.crashed⟩).events ∧
    List.Sublist [Event.waitCall, Event.closeProcessHandle, Event.closeThreadHandle]
      ((main [("sender")]
        ⟨ReadOutcome.ok ("h264_nvenc"), Except.ok (), ChildExit.crashed⟩).events) :=
  ⟨(c9_resources_released [("sender")]
      ⟨ReadOutcome.ok ("h264_nvenc"), Except.ok (), ChildExit.crashed⟩).1 (by decide),
   (c9_resources_released [("sender")]
      ⟨ReadOutcome.ok ("h264_nvenc"), Except.ok (), ChildExit.crashed⟩).2 (by decide)⟩

/-- Claim C10: with at least two argv entries, only argv[1] influences the run;
two runs differing only in the arguments past argv[1] are identical in every
observable (exit code, output, trace, hence command line). -/
theorem c10_extra_args_ignored (prog host : String) (rest rest2 : List String)
    (w : World) :
    main (prog :: host :: rest) w = main (prog :: host :: rest2) w := by
  have l1 : (prog :: host :: rest).length > 1 := by
    simp only [List.length_cons]
    omega
  have l2 : (prog :: host :: rest2).length > 1 := by
    simp only [List.length_cons]
    omega
  have g1 : (prog :: host :: rest).getD 1 DEFAULT_TARGET_IP = host := rfl
  have g2 : (prog :: host :: rest2).getD 1 DEFAULT_TARGET_IP = host := rfl
  simp only [main, resolveTargetIp, if_pos l1, if_pos l2, g1, g2]

end Sender
